import Mathlib

/-!
Verification development for the Bed-Leveling-Utility serial protocol engine
(`bed-leveling.py`). The Python source is shallowly embedded:

* Python floats are modelled as exact rationals (`ℚ`) of their decimal
  literals; all float values flowing through the engine originate from such
  literals or from arithmetic on them (`+`, `-`), where the model is exact.
* Python ints are modelled as `ℤ` (arbitrary precision in both).
* The regular-expression matchers of `GCodeReader` are embedded as
  deterministic character-list scanners; every pattern used by the source is
  of a form (literal anchors, maximal-munch character classes followed by
  characters outside the class) for which greedy scanning coincides with
  backtracking regex matching.
* `str.split(sep)` is embedded as `pySplit` (split on every occurrence of a
  non-empty separator, left to right, non-overlapping), and `float()` /
  `int()` as `pyFloat` / `pyInt`, restricted to the sign-free, exponent-free
  payload shapes that the classifier's delimiter extraction can produce.
* A Python exception escaping `handle_line` is modelled as
  `Except.error ()`; the happy path returns the `wx` event that the handler
  posts (or `unhandled` when the line falls through every branch).
* GUI-only widget state (labels, the level gauge, layout) is elided; the
  main busy gauge is kept as `gauge : ℕ` because it is the handshake
  counter of the engine. Button enablement from `EnableDisableUI` is kept
  as explicit predicates because it gates which handlers `wx` can invoke.
-/

/-- `BUSY_PROCESSING_STEPS = 6`, the busy-gauge ceiling (handshake maximum). -/
def BUSY_PROCESSING_STEPS : ℕ := 6

/-- `PRINTER_RESPONSE_OK = "ok"`. -/
def PRINTER_RESPONSE_OK : String := "ok"

/-- `PRINTER_RESPONSE_BUSY = "echo:busy: processing"`. -/
def PRINTER_RESPONSE_BUSY : String := "echo:busy: processing"

/-- Match a literal character sequence at the head of the input, returning the
remainder on success. Embeds a fixed literal piece of one of the source's
anchored regexes. -/
def litP : List Char → List Char → Option (List Char)
  | [], cs => some cs
  | _ :: _, [] => none
  | a :: l, c :: cs => if a = c then litP l cs else none

/-- Maximal run of `\d` dropped from the head (regex `\d*`). -/
def dropDigits (cs : List Char) : List Char := cs.dropWhile Char.isDigit

/-- Maximal run of `\.` dropped from the head (regex `\.*`). -/
def dropDots (cs : List Char) : List Char := cs.dropWhile (fun c => c = '.')

/-- Maximal run of Python `\s` dropped from the head (regex `\s*`). -/
def dropPySpaces (cs : List Char) : List Char :=
  cs.dropWhile (fun c =>
    c = ' ' || c = '\t' || c = '\n' || c = '\r' || c = '\x0b' || c = '\x0c')

/-- Regex `\d+`: at least one digit, maximal munch. -/
def digits1 (cs : List Char) : Option (List Char) :=
  match cs with
  | c :: r => if c.isDigit then some (dropDigits r) else none
  | [] => none

/-- Regex `\d+\.\d+` (the float shape of the coordinates report). -/
def fnum (cs : List Char) : Option (List Char) :=
  (digits1 cs).bind fun r => (litP ['.'] r).bind digits1

/-- Regex `\d\d*\.*\d*` (the numeric chunk of the temperature report). -/
def chunkNum (cs : List Char) : Option (List Char) :=
  (digits1 cs).map fun r => dropDigits (dropDots r)

/-- Embeds `PRINTER_REGEX_COORDINATES`:
`^X:\d+\.\d+ Y:\d+\.\d+ Z:\d+\.\d+ E:\d+\.\d+ Count X:\s*\d+ Y:\s*\d+ Z:\s*\d+$`. -/
def matchesCoordinates (s : String) : Bool :=
  (do
    let r ← litP "X:".data s.data
    let r ← fnum r
    let r ← litP " Y:".data r
    let r ← fnum r
    let r ← litP " Z:".data r
    let r ← fnum r
    let r ← litP " E:".data r
    let r ← fnum r
    let r ← litP " Count X:".data r
    let r ← digits1 (dropPySpaces r)
    let r ← litP " Y:".data r
    let r ← digits1 (dropPySpaces r)
    let r ← litP " Z:".data r
    let r ← digits1 (dropPySpaces r)
    if r.isEmpty then some () else none).isSome

/-- Embeds `PRINTER_REGEX_MESH_POINTS`: `^Num X,Y: \d,\d$` (note: exactly one
digit per axis). -/
def matchesMeshPoints (s : String) : Bool :=
  match s.data with
  | 'N' :: 'u' :: 'm' :: ' ' :: 'X' :: ',' :: 'Y' :: ':' :: ' ' :: x :: ',' :: y :: [] =>
    x.isDigit && y.isDigit
  | _ => false

/-- Embeds `PRINTER_REGEX_MESH_Z`: `^Z search height: \d\.*\d*$` (note: `\.*`
admits any number of dots, not at most one). -/
def matchesMeshZ (s : String) : Bool :=
  match litP "Z search height: ".data s.data with
  | some (c :: rest) => c.isDigit && (dropDigits (dropDots rest)).isEmpty
  | _ => false

/-- Embeds `PRINTER_REGEX_TEMP`:
`^ok T:\d\d*\.*\d* \/\d\d*\.*\d* B:\d\d*\.*\d* \/\d\d*\.*\d* B@:\d\d*\.*\d* @:\d\d*\.*\d*$`. -/
def matchesTemp (s : String) : Bool :=
  (do
    let r ← litP "ok T:".data s.data
    let r ← chunkNum r
    let r ← litP " /".data r
    let r ← chunkNum r
    let r ← litP " B:".data r
    let r ← chunkNum r
    let r ← litP " /".data r
    let r ← chunkNum r
    let r ← litP " B@:".data r
    let r ← chunkNum r
    let r ← litP " @:".data r
    let r ← chunkNum r
    if r.isEmpty then some () else none).isSome

/-- Fueled worker for `pySplit`; fuel is instantiated with the input length,
which the splitting loop never exceeds. -/
def pySplitFuel (a : Char) (sep : List Char) : ℕ → List Char → List (List Char)
  | _, [] => [[]]
  | 0, l => [l]
  | fuel + 1, c :: rest =>
    match litP (a :: sep) (c :: rest) with
    | some remainder => [] :: pySplitFuel a sep fuel remainder
    | none =>
      match pySplitFuel a sep fuel rest with
      | [] => [[c]]
      | h :: t => (c :: h) :: t

/-- Embeds Python `str.split(sep)` for a non-empty separator: split at every
occurrence, scanning left to right without overlap. (The source never calls
`split` with an empty separator.) -/
def pySplit (sep s : List Char) : List (List Char) :=
  match sep with
  | [] => [s]
  | a :: l => pySplitFuel a l s.length s

/-- Element `i` of a split result; the source only indexes positions the regex
match guarantees to exist. -/
def idx1 (l : List (List Char)) : List Char := l.getD 1 []

/-- Numeric value of a digit string. -/
def digitsVal (cs : List Char) : ℕ :=
  cs.foldl (fun n c => 10 * n + (c.toNat - 48)) 0

/-- Embeds Python `float(s)` on the sign-free, exponent-free strings the
classifier extracts (sequences of digits and dots): accepted exactly when the
string contains at least one digit and at most one dot; `none` models the
`ValueError` that `float` raises otherwise. -/
def pyFloat (cs : List Char) : Option ℚ :=
  match pySplit ['.'] cs with
  | [a] => if a ≠ [] ∧ a.all Char.isDigit then some (digitsVal a : ℚ) else none
  | [a, b] =>
    if (a ++ b) ≠ [] ∧ (a ++ b).all Char.isDigit then
      some ((digitsVal a : ℚ) + (digitsVal b : ℚ) / (10 : ℚ) ^ b.length)
    else none
  | _ => none

/-- Embeds Python `int(s)` on the unsigned digit strings the classifier
extracts; `none` models the `ValueError` on anything else. -/
def pyInt (cs : List Char) : Option ℤ :=
  if cs ≠ [] ∧ cs.all Char.isDigit then some (digitsVal cs : ℤ) else none

/-- Python `data.split(anchor)[1].split(" ")[0]`, the extraction idiom of the
coordinates branch of `handle_line`. -/
def firstField (anchor data : List Char) : List Char :=
  (pySplit [' '] (idx1 (pySplit anchor data))).getD 0 []

/-- The `wx` event that `GCodeReader.handle_line` posts for a line (or
`unhandled` when the line falls through every branch and is dropped). -/
inductive PrinterEvent where
  | statusOk
  | statusBusy
  | coordinates (x y z : String)
  | meshPoints (x y : String)
  | meshZ (z : ℚ)
  | temperature (bed : ℚ)
  | unhandled
deriving DecidableEq, Repr

/-- Embeds `GCodeReader.handle_line`, branch for branch in source order.
`Except.error ()` models a `ValueError` escaping the handler (the source has
no `try` around its `float(...)` calls, so such an exception propagates out
and terminates the serial reader thread). -/
def handle_line (data : String) : Except Unit PrinterEvent :=
  if data = PRINTER_RESPONSE_OK then Except.ok PrinterEvent.statusOk
  else if data = PRINTER_RESPONSE_BUSY then Except.ok PrinterEvent.statusBusy
  else if matchesCoordinates data then
    Except.ok (PrinterEvent.coordinates
      (String.mk (firstField "X:".data data.data))
      (String.mk (firstField "Y:".data data.data))
      (String.mk (firstField "Z:".data data.data)))
  else if matchesMeshPoints data then
    let fd := idx1 (pySplit "X,Y: ".data data.data)
    Except.ok (PrinterEvent.meshPoints
      (String.mk ((pySplit [','] fd).getD 0 []))
      (String.mk ((pySplit [','] fd).getD 1 [])))
  else if matchesMeshZ data then
    match pyFloat (idx1 (pySplit "Z search height: ".data data.data)) with
    | some q => Except.ok (PrinterEvent.meshZ q)
    | none => Except.error ()
  else if matchesTemp data then
    match pyFloat ((pySplit " /".data (idx1 (pySplit " B:".data data.data))).getD 0 []) with
    | some q => Except.ok (PrinterEvent.temperature q)
    | none => Except.error ()
  else Except.ok PrinterEvent.unhandled

/-- The mutable engine state of `WizardFrame` (GUI-only widgets elided;
`gauge` is the busy gauge driving the handshake counter). -/
structure WizardState where
  isConnected : Bool
  isLeveling : Bool
  currentPoint : ℤ
  meshPoints : ℤ
  step : ℚ
  currentZ : ℚ
  startZ : ℚ
  gauge : ℕ
deriving DecidableEq, Repr

/-- `WizardFrame.__init__` field initialisation: disconnected, not leveling,
point 0, mesh count sentinel `-1`, step `0.025`, Z values `0.0`, gauge `0`. -/
def initState : WizardState :=
  { isConnected := false
    isLeveling := false
    currentPoint := 0
    meshPoints := -1
    step := 1/40
    currentZ := 0
    startZ := 0
    gauge := 0 }

/-- One outbound `protocol.write_line(...)` call; each constructor stands for
one `GCODE_*` template of the source (`moveZ` for `G1 Z...`, `setBedTemp` for
`M140 S...`, the rest for the fixed literals). -/
inductive GCmd where
  | eepromSave
  | stopIdleHold
  | moveToOrigin
  | getCurrentPosition
  | meshInfo
  | meshStart
  | meshNext
  | moveZ (z : ℚ)
  | setBedTemp (t : ℚ)
  | getTemp
deriving DecidableEq, Repr

/-- Result of running one handler: the new engine state, the command lines
written to the serial transport (in order), and whether the handler bailed
out in its guard branch (printing a complaint and doing nothing). -/
structure OpOut where
  state : WizardState
  sent : List GCmd
  refused : Bool
deriving DecidableEq, Repr

/-- `EnableDisableUI`: the Start button is enabled exactly while connected,
not leveling, and `meshPoints > 0`. `wx` only delivers clicks to enabled
buttons, so this predicate gates `OnStart`. -/
def buttonStartEnabled (s : WizardState) : Bool :=
  s.isConnected && !s.isLeveling && decide (0 < s.meshPoints)

/-- `EnableDisableUI`: the Save button is enabled exactly while connected and
not leveling. -/
def buttonSaveEnabled (s : WizardState) : Bool :=
  s.isConnected && !s.isLeveling

/-- `EnableDisableUI`: the Next button is enabled exactly while connected and
leveling. -/
def buttonNextEnabled (s : WizardState) : Bool :=
  s.isConnected && s.isLeveling

/-- `WizardFrame.OnSave`: refuse while leveling, otherwise write `M500`.
(The gauge is not touched.) -/
def OnSave (s : WizardState) : OpOut :=
  if s.isLeveling then ⟨s, [], true⟩
  else ⟨s, [GCmd.eepromSave], false⟩

/-- `WizardFrame.OnStart` (the raw handler): refuse while leveling, otherwise
set the leveling flag, reset the point index, zero the gauge and write
`G29 S1`. -/
def OnStart (s : WizardState) : OpOut :=
  if s.isLeveling then ⟨s, [], true⟩
  else ⟨{ s with isLeveling := true, currentPoint := 0, gauge := 0 },
        [GCmd.meshStart], false⟩

/-- The start operation as invocable in the running program: the Start button
only dispatches `OnStart` while `EnableDisableUI` has enabled it. -/
def startOp (s : WizardState) : OpOut :=
  if buttonStartEnabled s then OnStart s else ⟨s, [], true⟩

/-- `WizardFrame.OnNext`: refuse unless leveling; otherwise zero the gauge,
write `G29 S2`, increment the point index, clear the leveling flag once the
index reaches `meshPoints`, and reset `currentZ` to `startZ`. -/
def OnNext (s : WizardState) : OpOut :=
  if !s.isLeveling then ⟨s, [], true⟩
  else
    ⟨{ s with gauge := 0
            , currentPoint := s.currentPoint + 1
            , isLeveling :=
                if s.meshPoints ≤ s.currentPoint + 1 then false else s.isLeveling
            , currentZ := s.startZ },
     [GCmd.meshNext], false⟩

/-- `WizardFrame.OnNewStepSize` with the text already parsed by `float`:
store the value unconditionally (the handler has no validation). -/
def OnNewStepSize (v : ℚ) (s : WizardState) : OpOut :=
  ⟨{ s with step := v }, [], false⟩

/-- `WizardFrame.OnUp`: add the step to `currentZ`, zero the gauge, write
`G1 Z<new Z>`. -/
def OnUp (s : WizardState) : OpOut :=
  ⟨{ s with currentZ := s.currentZ + s.step, gauge := 0 },
   [GCmd.moveZ (s.currentZ + s.step)], false⟩

/-- `WizardFrame.OnDown`: refuse when `currentZ <= 0.0`; otherwise subtract
the step from `currentZ`, zero the gauge, write `G1 Z<new Z>`. -/
def OnDown (s : WizardState) : OpOut :=
  if s.currentZ ≤ 0 then ⟨s, [], true⟩
  else
    ⟨{ s with currentZ := s.currentZ - s.step, gauge := 0 },
     [GCmd.moveZ (s.currentZ - s.step)], false⟩

/-- `WizardFrame.OnStepperOff`: zero the gauge, write `M84`. -/
def OnStepperOff (s : WizardState) : OpOut :=
  ⟨{ s with gauge := 0 }, [GCmd.stopIdleHold], false⟩

/-- `WizardFrame.OnHome`: zero the gauge, write `G28`. -/
def OnHome (s : WizardState) : OpOut :=
  ⟨{ s with gauge := 0 }, [GCmd.moveToOrigin], false⟩

/-- `WizardFrame.PollPosition`: while connected, write `M114` (and re-arm the
timer, elided). The gauge is not touched. -/
def PollPosition (s : WizardState) : OpOut :=
  if s.isConnected then ⟨s, [GCmd.getCurrentPosition], false⟩ else ⟨s, [], false⟩

/-- `WizardFrame.PollMeshData`: while connected, write `G29 S0`. The gauge is
not touched. -/
def PollMeshData (s : WizardState) : OpOut :=
  if s.isConnected then ⟨s, [GCmd.meshInfo], false⟩ else ⟨s, [], false⟩

/-- `WizardFrame.PollTemperature`: while connected, write `M105` (and re-arm
the timer, elided). The gauge is not touched. -/
def PollTemperature (s : WizardState) : OpOut :=
  if s.isConnected then ⟨s, [GCmd.getTemp], false⟩ else ⟨s, [], false⟩

/-- The re-arm guard of `WizardFrame.PollMeshDataRetry`: the retry timer is
scheduled again exactly while `meshPoints <= 0`. -/
def pollMeshDataRetryRearms (s : WizardState) : Bool :=
  decide (s.meshPoints ≤ 0)

/-- `WizardFrame.PollMeshDataRetry`: while `meshPoints <= 0`, poll the mesh
info (and re-arm, see `pollMeshDataRetryRearms`); otherwise do nothing. -/
def PollMeshDataRetry (s : WizardState) : OpOut :=
  if s.meshPoints ≤ 0 then PollMeshData s else ⟨s, [], false⟩

/-- `WizardFrame.OnNewBedTemperature` with the text already parsed by
`float`: write `M140 S<t>`. The gauge is not touched. -/
def OnNewBedTemperature (t : ℚ) (s : WizardState) : OpOut :=
  ⟨s, [GCmd.setBedTemp t], false⟩

/-- `WizardFrame.OnMeshPoints` with the event payload already parsed by
`int`: store `x * y` as the mesh point count. -/
def OnMeshPoints (x y : ℤ) (s : WizardState) : WizardState :=
  { s with meshPoints := x * y }

/-- `WizardFrame.OnMeshZ`: store the reported height as both `startZ` and
`currentZ`, and set the gauge to `BUSY_PROCESSING_STEPS`. -/
def OnMeshZ (z : ℚ) (s : WizardState) : WizardState :=
  { s with startZ := z, currentZ := z, gauge := BUSY_PROCESSING_STEPS }

/-- `WizardFrame.OnBusy`: increment the gauge, saturating at its range. -/
def OnBusy (s : WizardState) : WizardState :=
  if s.gauge < BUSY_PROCESSING_STEPS then { s with gauge := s.gauge + 1 } else s

/-- `WizardFrame.OnDone`: set the gauge to its range. -/
def OnDone (s : WizardState) : WizardState :=
  { s with gauge := BUSY_PROCESSING_STEPS }

/-- `WizardFrame.OnConnectDisconnect`, `isConnected` branch: clear the
leveling flag and point index, close the transport, clear the connected flag
and zero the gauge. (`meshPoints` is left untouched here.) -/
def disconnectOp (s : WizardState) : OpOut :=
  ⟨{ s with isLeveling := false, currentPoint := 0, isConnected := false, gauge := 0 },
   [], false⟩

/-- `WizardFrame.OnConnectDisconnect`, successful-open branch: clear the
leveling flag and point index, set the connected flag, reset `meshPoints` to
the `-1` sentinel, then fire the first position, mesh-info and temperature
polls. -/
def connectSuccess (s : WizardState) : OpOut :=
  ⟨{ s with isLeveling := false, currentPoint := 0, isConnected := true, meshPoints := -1 },
   [GCmd.getCurrentPosition, GCmd.meshInfo, GCmd.getTemp], false⟩

/-- `k` consecutive invocations of `OnNext` (the advance operation), keeping
only the state. -/
def advanceIter : ℕ → WizardState → WizardState
  | 0, s => s
  | k + 1, s => (OnNext (advanceIter k s)).state

/-- Invariant of the advance loop: starting from an active session at point 0
with `meshPoints = n ≥ 1`, after `k ≤ n` advances the point index is `k`, the
session is active exactly while `k < n`, and `meshPoints` and `startZ` are
untouched. -/
theorem advanceIter_invariant (s : WizardState) (n : ℤ) (hn : 1 ≤ n)
    (hl : s.isLeveling = true) (hp : s.currentPoint = 0) (hm : s.meshPoints = n) :
    ∀ k : ℕ, (k : ℤ) ≤ n →
      (advanceIter k s).currentPoint = (k : ℤ) ∧
      (advanceIter k s).isLeveling = decide ((k : ℤ) < n) ∧
      (advanceIter k s).meshPoints = n ∧
      (advanceIter k s).startZ = s.startZ := by
  intro k
  induction k with
  | zero =>
    intro _
    have h0 : ((0 : ℕ) : ℤ) < n := by omega
    refine ⟨by simpa [advanceIter] using hp, ?_, by simpa [advanceIter] using hm,
      by simp [advanceIter]⟩
    simp only [advanceIter, hl]
    exact (decide_eq_true h0).symm
  | succ k ih =>
    intro hk1
    have hkn : (k : ℤ) < n := by push_cast at hk1 ⊢; omega
    obtain ⟨hcp, hlev, hmp, hsz⟩ := ih (le_of_lt hkn)
    have hlev' : (advanceIter k s).isLeveling = true := by
      rw [hlev]; exact decide_eq_true hkn
    constructor
    · show (OnNext (advanceIter k s)).state.currentPoint = _
      simp [OnNext, hlev', hcp]
    constructor
    · show (OnNext (advanceIter k s)).state.isLeveling = _
      simp only [OnNext, hlev', Bool.not_true, Bool.false_eq_true, if_false]
      simp only [hcp, hmp]
      by_cases h : ((k : ℤ) + 1 < n)
      · have h2 : ¬ (n ≤ (k : ℤ) + 1) := by omega
        simp only [if_neg h2, hlev']
        have : ((k : ℕ) + 1 : ℤ) < n := by omega
        exact (decide_eq_true this).symm
      · have h2 : n ≤ (k : ℤ) + 1 := by omega
        simp only [if_pos h2]
        have : ¬ (((k : ℕ) + 1 : ℤ) < n) := by omega
        exact (decide_eq_false this).symm
    constructor
    · show (OnNext (advanceIter k s)).state.meshPoints = _
      simp [OnNext, hlev', hmp]
    · show (OnNext (advanceIter k s)).state.startZ = _
      simp [OnNext, hlev', hsz]

/-- C1: refuted as stated — the claim says classification never raises and
that every line matching the mesh-start-height shape yields a successfully
parsed float. The shape's regex `\d\.*\d*` admits repeated dots, so
`Z search height: 1..2` matches the shape while `float("1..2")` raises an
uncaught `ValueError` inside `handle_line` (modelled by `Except.error ()`),
killing the serial reader thread instead of dropping the line. -/
theorem C1_meshZ_crash :
    matchesMeshZ "Z search height: 1..2" = true ∧
    pyFloat "1..2".data = none ∧
    handle_line "Z search height: 1..2" = Except.error () := by
  refine ⟨rfl, rfl, rfl⟩

/-- C2: from a freshly started session over `n ≥ 1` mesh points, the session
is active after each of the first `n-1` advances and inactive exactly from
the `n`-th advance on; every advance up to and including the `n`-th is
accepted, writes the mesh-next command, and resets `currentZ` to `startZ`. -/
theorem C2_advance_counts (s : WizardState) (n : ℤ)
    (hc : s.isConnected = true) (hl : s.isLeveling = false)
    (hm : s.meshPoints = n) (hn : 1 ≤ n) :
    (∀ k : ℕ, (k : ℤ) ≤ n →
        (advanceIter k (startOp s).state).isLeveling = decide ((k : ℤ) < n)) ∧
    (∀ k : ℕ, (k : ℤ) < n →
        (OnNext (advanceIter k (startOp s).state)).refused = false ∧
        (OnNext (advanceIter k (startOp s).state)).sent = [GCmd.meshNext] ∧
        (OnNext (advanceIter k (startOp s).state)).state.currentZ = s.startZ) := by
  have hpos : 0 < s.meshPoints := by omega
  have hen : buttonStartEnabled s = true := by
    simp [buttonStartEnabled, hc, hl, hpos]
  have hs1 : (startOp s).state =
      { s with isLeveling := true, currentPoint := 0, gauge := 0 } := by
    simp [startOp, hen, OnStart, hl]
  have h1 : (startOp s).state.isLeveling = true := by rw [hs1]
  have h2 : (startOp s).state.currentPoint = 0 := by rw [hs1]
  have h3 : (startOp s).state.meshPoints = n := by rw [hs1]; exact hm
  have h4 : (startOp s).state.startZ = s.startZ := by rw [hs1]
  have inv := advanceIter_invariant (startOp s).state n hn h1 h2 h3
  constructor
  · intro k hk
    exact (inv k hk).2.1
  · intro k hk
    obtain ⟨hcp, hlev, hmp, hsz⟩ := inv k (le_of_lt hk)
    have hlev' : (advanceIter k (startOp s).state).isLeveling = true := by
      rw [hlev]; exact decide_eq_true hk
    refine ⟨by simp [OnNext, hlev'], by simp [OnNext, hlev'], ?_⟩
    show (OnNext (advanceIter k (startOp s).state)).state.currentZ = s.startZ
    simp [OnNext, hlev']
    rw [hsz, h4]

/-- C2 witness: with 2 mesh points, the first advance leaves the session
active and the second deactivates it; the first advance writes `G29 S2`. -/
theorem C2_advance_counts_witness :
    (advanceIter 1 (startOp { initState with isConnected := true, meshPoints := 2 }).state).isLeveling = true ∧
    (advanceIter 2 (startOp { initState with isConnected := true, meshPoints := 2 }).state).isLeveling = false ∧
    (OnNext (advanceIter 0 (startOp { initState with isConnected := true, meshPoints := 2 }).state)).sent = [GCmd.meshNext] := by
  have h := C2_advance_counts { initState with isConnected := true, meshPoints := 2 } 2
    rfl rfl rfl (by norm_num)
  refine ⟨?_, ?_, (h.2 0 (by norm_num)).2.1⟩
  · have h1 := h.1 1 (by norm_num)
    rw [h1]; decide
  · have h2 := h.1 2 (by norm_num)
    rw [h2]; decide

/-- C3: the start operation (Start button while enabled, plus the handler's
own guard) is rejected with no command sent and no state change whenever the
mesh point count is not positive or a session is already active; it succeeds
exactly in the connected, mesh-known, not-leveling state, where it resets
the point index to 0, zeroes the gauge and writes the mesh-start command. -/
theorem C3_start_guard (s : WizardState) :
    ((startOp s).refused = false ↔
      s.isConnected = true ∧ 0 < s.meshPoints ∧ s.isLeveling = false) ∧
    (¬ 0 < s.meshPoints ∨ s.isLeveling = true → startOp s = ⟨s, [], true⟩) ∧
    (s.isConnected = true → 0 < s.meshPoints → s.isLeveling = false →
      startOp s = ⟨{ s with isLeveling := true, currentPoint := 0, gauge := 0 },
                   [GCmd.meshStart], false⟩) := by
  by_cases he : buttonStartEnabled s = true
  · have he' := he
    simp only [buttonStartEnabled, Bool.and_eq_true, Bool.not_eq_true',
      decide_eq_true_eq] at he'
    obtain ⟨⟨hc, hl⟩, hm⟩ := he'
    have hrun : startOp s =
        ⟨{ s with isLeveling := true, currentPoint := 0, gauge := 0 },
         [GCmd.meshStart], false⟩ := by
      simp [startOp, he, OnStart, hl]
    refine ⟨?_, ?_, fun _ _ _ => hrun⟩
    · rw [hrun]
      simp [hc, hm, hl]
    · rintro (h | h)
      · exact absurd hm h
      · rw [hl] at h
        exact absurd h (by simp)
  · have hrej : startOp s = ⟨s, [], true⟩ := by
      simp [startOp, he]
    refine ⟨?_, fun _ => hrej, ?_⟩
    · rw [hrej]
      simp only [Bool.true_eq_false, false_iff]
      rintro ⟨hc, hm, hl⟩
      exact he (by simp [buttonStartEnabled, hc, hl, hm])
    · intro hc hm hl
      exact absurd (by simp [buttonStartEnabled, hc, hl, hm] : buttonStartEnabled s = true) he

/-- C3 witness: start is refused in the fresh (mesh-unknown, disconnected)
state, and succeeds from a connected state with 9 known mesh points. -/
theorem C3_start_guard_witness :
    startOp initState = ⟨initState, [], true⟩ ∧
    startOp { initState with isConnected := true, meshPoints := 9 } =
      ⟨{ initState with
           isConnected := true
           meshPoints := 9
           isLeveling := true
           currentPoint := 0
           gauge := 0 },
       [GCmd.meshStart], false⟩ := by
  constructor
  · exact (C3_start_guard initState).2.1 (Or.inl (by decide))
  · exact (C3_start_guard { initState with isConnected := true, meshPoints := 9 }).2.2
      rfl (by decide) rfl

/-- C4 counterexample: `OnSave` writes the save command while the gauge
(handshake counter) still reads 3 and leaves it at 3 — the save operation
never resets the counter before transmission, refuting the claim's "every
outbound command operation". -/
theorem C4_counterexample :
    (OnSave { initState with isConnected := true, gauge := 3 }).sent = [GCmd.eepromSave] ∧
    (OnSave { initState with isConnected := true, gauge := 3 }).state.gauge = 3 ∧
    (3 : ℕ) ≠ 0 := by
  refine ⟨rfl, rfl, by decide⟩

/-- C4 amended: start, advance, jog up, jog down, home and motors-off zero
the gauge when they transmit; save, set-bed-temperature and the scheduled
polls (position, mesh-info, mesh-info retry, temperature) transmit without
touching the gauge. -/
theorem C4_gauge_reset (s : WizardState) (t : ℚ) :
    (OnUp s).state.gauge = 0 ∧
    (OnHome s).state.gauge = 0 ∧
    (OnStepperOff s).state.gauge = 0 ∧
    ((OnDown s).refused = false → (OnDown s).state.gauge = 0) ∧
    ((startOp s).refused = false → (startOp s).state.gauge = 0) ∧
    ((OnNext s).refused = false → (OnNext s).state.gauge = 0) ∧
    (OnSave s).state.gauge = s.gauge ∧
    (OnNewBedTemperature t s).state.gauge = s.gauge ∧
    (PollPosition s).state.gauge = s.gauge ∧
    (PollMeshData s).state.gauge = s.gauge ∧
    (PollTemperature s).state.gauge = s.gauge ∧
    (PollMeshDataRetry s).state.gauge = s.gauge := by
  refine ⟨rfl, rfl, rfl, ?_, ?_, ?_, ?_, rfl, ?_, ?_, ?_, ?_⟩
  · unfold OnDown
    split <;> simp
  · unfold startOp OnStart
    split
    · split <;> simp
    · simp
  · unfold OnNext
    split <;> simp
  · unfold OnSave
    split <;> simp
  · unfold PollPosition
    split <;> rfl
  · unfold PollMeshData
    split <;> rfl
  · unfold PollTemperature
    split <;> rfl
  · unfold PollMeshDataRetry PollMeshData
    split
    · split <;> rfl
    · rfl

/-- C4 witness: an accepted jog-down zeroes the gauge, while a save from
gauge 5 leaves it at 5. -/
theorem C4_gauge_reset_witness :
    (OnDown { initState with isConnected := true, currentZ := 1 }).state.gauge = 0 ∧
    (OnSave { initState with isConnected := true, gauge := 5 }).state.gauge = 5 := by
  have h := C4_gauge_reset { initState with isConnected := true, currentZ := 1 } 0
  have h2 := C4_gauge_reset { initState with isConnected := true, gauge := 5 } 0
  exact ⟨h.2.2.2.1 (by decide), h2.2.2.2.2.2.2.1⟩

/-- C5 counterexample: disconnecting from a connected state with 9 known mesh
points keeps `meshPoints = 9` — the mesh geometry is not reset to the unknown
sentinel `-1` by the disconnect operation. -/
theorem C5_counterexample :
    (disconnectOp { initState with isConnected := true, meshPoints := 9 }).state.meshPoints = 9 ∧
    (9 : ℤ) ≠ -1 := by
  refine ⟨rfl, by decide⟩

/-- C5 amended: disconnect always succeeds from any connected state, writes
nothing, and leaves the engine disconnected with the session reset (inactive,
point index 0) and gauge 0; `meshPoints` keeps its previous value and is only
reset to the `-1` sentinel by the next successful connect. -/
theorem C5_disconnect (s : WizardState) (_h : s.isConnected = true) :
    disconnectOp s =
      ⟨{ s with isLeveling := false, currentPoint := 0, isConnected := false, gauge := 0 },
       [], false⟩ ∧
    (disconnectOp s).state.meshPoints = s.meshPoints ∧
    (connectSuccess (disconnectOp s).state).state.meshPoints = -1 := by
  exact ⟨rfl, rfl, rfl⟩

/-- C5 witness: disconnecting the connected 9-point state leaves the session
reset and `meshPoints` at 9; the next connect resets it to `-1`. -/
theorem C5_disconnect_witness :
    (disconnectOp { initState with isConnected := true, meshPoints := 9 }).state.isConnected = false ∧
    (disconnectOp { initState with isConnected := true, meshPoints := 9 }).state.meshPoints = 9 ∧
    (connectSuccess (disconnectOp { initState with isConnected := true, meshPoints := 9 }).state).state.meshPoints = -1 := by
  have h := C5_disconnect { initState with isConnected := true, meshPoints := 9 } rfl
  refine ⟨?_, h.2.1, h.2.2⟩
  rw [h.1]

/-- C6 counterexample: the mesh-grid pattern accepts exactly one digit per
axis, so the line for countX = 10, countY = 1 is not recognized as a
mesh-grid report — it falls through every classifier branch and is dropped. -/
theorem C6_counterexample :
    handle_line "Num X,Y: 10,1" = Except.ok PrinterEvent.unhandled ∧
    PrinterEvent.unhandled ≠ PrinterEvent.meshPoints "10" "1" := by
  refine ⟨rfl, by decide⟩

/-- C6 amended: for single-digit counts 1 ≤ countX ≤ 9 and 1 ≤ countY ≤ 9,
the line `Num X,Y: <countX>,<countY>` is classified as a mesh-points report,
both extracted fields parse with `int`, and the handler stores the total
countX · countY. -/
theorem C6_mesh_grid (s : WizardState) (cx cy : ℕ)
    (h1 : 1 ≤ cx) (h2 : cx ≤ 9) (h3 : 1 ≤ cy) (h4 : cy ≤ 9) :
    handle_line ("Num X,Y: " ++ toString cx ++ "," ++ toString cy)
      = Except.ok (PrinterEvent.meshPoints (toString cx) (toString cy)) ∧
    pyInt (toString cx).data = some (cx : ℤ) ∧
    pyInt (toString cy).data = some (cy : ℤ) ∧
    (OnMeshPoints (cx : ℤ) (cy : ℤ) s).meshPoints = (cx : ℤ) * (cy : ℤ) := by
  refine ⟨?_, ?_, ?_, rfl⟩
  · interval_cases cx <;> interval_cases cy <;> rfl
  · interval_cases cx <;> rfl
  · interval_cases cy <;> rfl

/-- C6 witness: `Num X,Y: 3,4` is recognized and stores 12 points. -/
theorem C6_mesh_grid_witness :
    handle_line "Num X,Y: 3,4" = Except.ok (PrinterEvent.meshPoints "3" "4") ∧
    (OnMeshPoints 3 4 initState).meshPoints = 12 := by
  have h := C6_mesh_grid initState 3 4 (by decide) (by decide) (by decide) (by decide)
  exact ⟨h.1, h.2.2.2⟩

/-- C7 counterexample: from the fresh connected state (whose sentinel is
`-1`), receiving the mesh-grid report `0,0` stores `meshPoints = 0` — the
value 0, not the distinct unknown sentinel. -/
theorem C7_counterexample :
    (OnMeshPoints 0 0 { initState with isConnected := true }).meshPoints = 0 ∧
    { initState with isConnected := true }.meshPoints = -1 ∧
    (0 : ℤ) ≠ -1 := by
  exact ⟨rfl, rfl, by decide⟩

/-- C7 amended: receiving `Num X,Y: 0,0` classifies as a mesh-points report
and stores total 0 (not the `-1` sentinel); behaviourally the geometry still
counts as not known: the retry guard `meshPoints <= 0` keeps the mesh-info
poll re-arming (and polling while connected), and the Start button stays
disabled until a positive total arrives. -/
theorem C7_zero_mesh (s : WizardState) (h : s.isConnected = true) :
    handle_line "Num X,Y: 0,0" = Except.ok (PrinterEvent.meshPoints "0" "0") ∧
    pyInt "0".data = some 0 ∧
    (OnMeshPoints 0 0 s).meshPoints = 0 ∧
    pollMeshDataRetryRearms (OnMeshPoints 0 0 s) = true ∧
    (PollMeshDataRetry (OnMeshPoints 0 0 s)).sent = [GCmd.meshInfo] ∧
    buttonStartEnabled (OnMeshPoints 0 0 s) = false := by
  refine ⟨rfl, rfl, rfl, rfl, ?_, ?_⟩
  · simp [PollMeshDataRetry, PollMeshData, OnMeshPoints, h]
  · simp [buttonStartEnabled, OnMeshPoints]

/-- C7 witness: the zero report on the fresh connected state stores 0 and
the retry poll still fires the mesh-info request. -/
theorem C7_zero_mesh_witness :
    (OnMeshPoints 0 0 { initState with isConnected := true }).meshPoints = 0 ∧
    (PollMeshDataRetry (OnMeshPoints 0 0 { initState with isConnected := true })).sent
      = [GCmd.meshInfo] := by
  have h := C7_zero_mesh { initState with isConnected := true } rfl
  exact ⟨h.2.2.1, h.2.2.2.2.1⟩

/-- C8 counterexample: `setStepSize(0)` (a value v ≤ 0) is not rejected — it
silently replaces the previous step 0.025 with 0. -/
theorem C8_counterexample :
    (OnNewStepSize 0 { initState with isConnected := true }).refused = false ∧
    (OnNewStepSize 0 { initState with isConnected := true }).state.step = 0 ∧
    { initState with isConnected := true }.step = 1/40 ∧
    (1/40 : ℚ) ≠ 0 ∧
    (0 : ℚ) ≤ 0 := by
  refine ⟨rfl, rfl, rfl, by norm_num, le_refl 0⟩

/-- C8 amended: `setStepSize` performs no validation: for every v (including
v ≤ 0) it immediately replaces the stored step, sends nothing and changes
nothing else; the new step affects subsequent jogs only (a following jog-up
moves the unchanged `currentZ` by exactly v). -/
theorem C8_step_size (v : ℚ) (s : WizardState) :
    OnNewStepSize v s = ⟨{ s with step := v }, [], false⟩ ∧
    (OnUp ((OnNewStepSize v s).state)).state.currentZ = s.currentZ + v ∧
    (OnUp ((OnNewStepSize v s).state)).sent = [GCmd.moveZ (s.currentZ + v)] := by
  exact ⟨rfl, rfl, rfl⟩

/-- C9: jog-down is refused (no command sent, no state change) exactly when
`currentZ ≤ 0`; when `0 < currentZ` — even by less than one step — it
subtracts the step (possibly ending below zero), zeroes the gauge and writes
the Z-move command for the new height. -/
theorem C9_jog_down (s : WizardState) :
    ((OnDown s).refused = decide (s.currentZ ≤ 0)) ∧
    (s.currentZ ≤ 0 → OnDown s = ⟨s, [], true⟩) ∧
    (0 < s.currentZ →
      OnDown s = ⟨{ s with currentZ := s.currentZ - s.step, gauge := 0 },
                  [GCmd.moveZ (s.currentZ - s.step)], false⟩) := by
  refine ⟨?_, ?_, ?_⟩
  · unfold OnDown
    split <;> rename_i h <;> simp [h]
  · intro h
    unfold OnDown
    rw [if_pos h]
  · intro h
    unfold OnDown
    rw [if_neg (not_le.mpr h)]

/-- C9 witness: at currentZ = 0.024999 with the default step 0.025 the jog is
accepted and the new Z is negative, while at currentZ = 0 the jog is
refused. -/
theorem C9_jog_down_witness :
    (0 : ℚ) < 24999/1000000 ∧
    (OnDown { initState with isConnected := true, currentZ := 24999/1000000 }).refused = false ∧
    (OnDown { initState with isConnected := true, currentZ := 24999/1000000 }).state.currentZ < 0 ∧
    (OnDown initState).refused = true := by
  have hpos : (0:ℚ) < 24999/1000000 := by norm_num
  have h := (C9_jog_down { initState with isConnected := true, currentZ := 24999/1000000 }).2.2 hpos
  have h0 := (C9_jog_down initState).2.1 (le_refl 0)
  refine ⟨hpos, ?_, ?_, ?_⟩
  · rw [h]
  · rw [h]
    show (24999/1000000 : ℚ) - 1/40 < 0
    norm_num
  · rw [h0]

/-- C10 counterexample: receiving a mesh start height sets the gauge
(handshake counter) to 6 — a state whose gauge reads 2 does not keep it, so
the report is not handshake-neutral as claimed. -/
theorem C10_counterexample :
    (OnMeshZ 5 { initState with isConnected := true, gauge := 2 }).gauge = 6 ∧
    (6 : ℕ) ≠ 2 := by
  exact ⟨rfl, by decide⟩

/-- C10 amended: receiving a mesh start height sets `startZ` and `currentZ`
to the reported value and the gauge to its maximum `BUSY_PROCESSING_STEPS`
(6); connection state, leveling flag, point index, mesh geometry and step
size are unchanged. -/
theorem C10_mesh_z (z : ℚ) (s : WizardState) :
    OnMeshZ z s = { s with startZ := z, currentZ := z, gauge := BUSY_PROCESSING_STEPS } ∧
    (OnMeshZ z s).isConnected = s.isConnected ∧
    (OnMeshZ z s).isLeveling = s.isLeveling ∧
    (OnMeshZ z s).currentPoint = s.currentPoint ∧
    (OnMeshZ z s).meshPoints = s.meshPoints ∧
    (OnMeshZ z s).step = s.step ∧
    (OnMeshZ z s).gauge = 6 := by
  exact ⟨rfl, rfl, rfl, rfl, rfl, rfl, rfl⟩

example : handle_line "ok" = Except.ok PrinterEvent.statusOk := by rfl

example : handle_line "echo:busy: processing" = Except.ok PrinterEvent.statusBusy := by rfl

example : handle_line "Z search height: 5" = Except.ok (PrinterEvent.meshZ 5) := by rfl

example : handle_line "X:1.00 Y:2.00 Z:3.00 E:0.00 Count X: 0 Y: 0 Z: 0"
    = Except.ok (PrinterEvent.coordinates "1.00" "2.00" "3.00") := by rfl

example : handle_line "ok T:21.0 /0.0 B:60.5 /0.0 B@:0 @:0"
    = Except.ok (PrinterEvent.temperature (121/2)) := by
  show Except.ok (PrinterEvent.temperature ((60 : ℚ) + (5 : ℚ) / (10 : ℚ) ^ 1)) = _
  norm_num

example : handle_line "hello world" = Except.ok PrinterEvent.unhandled := by rfl
